import Mathlib

/-!
Shallow embedding of `src/22071718.py`, a single-pass matplotlib dashboard
script: a CSV loader (`read_export_import_data`), an inline row selector used
by each renderer, and three renderer functions (line, horizontal bar, pie)
wired together by a fixed composer.

Modelling conventions:
* A pandas `DataFrame` is a list of column headers plus a list of rows of
  string cells (cells are the raw strings read from the CSV).
* Python floats are embedded as exact rationals `ℚ`; `pd.to_numeric(...,
  errors='coerce')` returns `Option ℚ`, with `none` standing for the NaN a
  non-parseable cell coerces to.
* Renderers draw onto an axes object; the embedding makes each renderer
  return the drawing commands it would issue (series, bars, pie wedges)
  instead of mutating an axes.  Mutable state threaded through a call is
  made explicit where a claim needs it.
-/

namespace Merch

/-- Shallow embedding of a pandas DataFrame holding CSV data: a list of
column headers and a list of rows of raw string cells. -/
structure DataFrame where
  columns : List String
  rows : List (List String)
deriving DecidableEq, Repr

/-- Embedding of Python `col.split(' ')[0]` (line 20 of the source): the
longest prefix of the string containing no space character. -/
def firstToken (s : String) : String :=
  String.mk (s.data.takeWhile (fun c => c != ' '))

/-- Embedding of `DataFrame.drop(columns=names)` (lines 18-19): removes the
named columns from the header and the corresponding entries from every row. -/
def dropColumns (names : List String) (df : DataFrame) : DataFrame where
  columns := df.columns.filter (fun c => decide (c ∉ names))
  rows := df.rows.map (fun r =>
    ((df.columns.zip r).filter (fun p => decide (p.1 ∉ names))).map Prod.snd)

/-- Embedding of `read_export_import_data` (lines 7-22).  The argument is
the table parsed from the CSV by `pd.read_csv`; `.iloc[:-10]` drops the
trailing 10 rows, then the two code columns are dropped, then every header
is truncated at its first space. -/
def read_export_import_data (df : DataFrame) : DataFrame :=
  let trimmed : DataFrame := ⟨df.columns, df.rows.take (df.rows.length - 10)⟩
  let dropped := dropColumns ["Country Code", "Series Code"] trimmed
  ⟨dropped.columns.map firstToken, dropped.rows⟩

/-- The cell of a row under the named column: the entry at the column's
index in the header (embedding of label-based indexing into a row). -/
def cellAt (df : DataFrame) (row : List String) (name : String) : String :=
  row.getD (df.columns.indexOf name) ""

/-- The boolean row mask `(data['Series'] == indicator) &
(data['Country'].isin(countries))` used by all three renderers
(lines 58-59, 90-91, 132-133). -/
def matchesFilter (df : DataFrame) (indicator : String)
    (countries : List String) (row : List String) : Bool :=
  cellAt df row "Series" == indicator && countries.contains (cellAt df row "Country")

/-- Embedding of `data.loc[mask, year].values.tolist()`: the `year` column
of the rows matching the Series/Country mask, in table row order. -/
def selectValues (df : DataFrame) (indicator : String)
    (countries : List String) (year : String) : List String :=
  (df.rows.filter (matchesFilter df indicator countries)).map
    (fun r => cellAt df r year)

/-- Value of a list of decimal digit characters read left to right. -/
def digitsToNat (l : List Char) : ℕ :=
  l.foldl (fun a c => 10 * a + (c.toNat - Char.toNat '0')) 0

/-- Embedding of `pd.to_numeric(·, errors='coerce')` on one cell: parses an
optionally signed decimal numeral with optional fractional part and optional
exponent; any string that is not such a numeral (e.g. `"N/A"`, or the
non-finite spellings, which have no rational value) coerces to `none`,
the embedding of NaN.  The function is total: it never fails. -/
def parseNumeric (s : String) : Option ℚ :=
  let cs0 := s.data
  let sign : ℚ := match cs0 with
    | '-' :: _ => -1
    | _ => 1
  let cs1 : List Char := match cs0 with
    | '-' :: rest => rest
    | '+' :: rest => rest
    | _ => cs0
  let intPart := cs1.takeWhile Char.isDigit
  let cs2 := cs1.dropWhile Char.isDigit
  let fracPart : List Char := match cs2 with
    | '.' :: rest => rest.takeWhile Char.isDigit
    | _ => []
  let cs3 : List Char := match cs2 with
    | '.' :: rest => rest.dropWhile Char.isDigit
    | _ => cs2
  if intPart.isEmpty && fracPart.isEmpty then none
  else
    let mantissa : ℚ :=
      (digitsToNat intPart : ℚ) + (digitsToNat fracPart : ℚ) / (10 : ℚ) ^ fracPart.length
    match cs3 with
    | [] => some (sign * mantissa)
    | e :: rest =>
      if e == 'e' || e == 'E' then
        let esign : ℤ := match rest with
          | '-' :: _ => -1
          | _ => 1
        let rest1 : List Char := match rest with
          | '-' :: r => r
          | '+' :: r => r
          | _ => rest
        let eDigits := rest1.takeWhile Char.isDigit
        let rest2 := rest1.dropWhile Char.isDigit
        if eDigits.isEmpty || !rest2.isEmpty then none
        else some (sign * mantissa * (10 : ℚ) ^ (esign * (digitsToNat eDigits : ℤ)))
      else none

/-- `pd.to_numeric(values, errors='coerce')` applied to a selected column:
coerces every cell, sending non-parseable cells to `none` (NaN). -/
def coerceCells (cells : List String) : List (Option ℚ) :=
  cells.map parseNumeric

/-- Round a rational to the nearest integer, ties to even — the rounding
of Python fixed-point formatting on an exactly representable value. -/
def roundHalfEven (q : ℚ) : ℤ :=
  let f := ⌊q⌋
  let r := q - (f : ℚ)
  if r < 1 / 2 then f
  else if 1 / 2 < r then f + 1
  else if f % 2 = 0 then f else f + 1

/-- Embedding of Python fixed-point formatting to one decimal place
(the `:.1f` in line 101) on an exact rational. -/
def fmt1 (q : ℚ) : String :=
  let n := roundHalfEven (10 * q)
  let sign := if n < 0 then "-" else ""
  let m := n.natAbs
  sign ++ toString (m / 10) ++ "." ++ toString (m % 10)

/-- Embedding of the bar annotation format of line 101, applied to one
element `value` of `values_billions`:
`f'\x7bvalue:.1f\x7dB' if value >= 1 else f'\x7bvalue * 1000:.1f\x7dM'`. -/
def barLabel (value : ℚ) : String :=
  if 1 ≤ value then fmt1 value ++ "B" else fmt1 (value * 1000) ++ "M"

/-- Line 101 on a possibly-NaN value: `NaN >= 1` is false in Python and
formatting NaN times 1000 prints `nan`, so a coerced cell annotates as
`"nanM"`. -/
def barLabelOpt : Option ℚ → String
  | none => "nanM"
  | some v => barLabel v

/-- The label-formatting rule as the specification states it, on the raw
(unscaled) cell value `v`: billions amount with `B` when `v / 1e9 ≥ 1`,
otherwise millions amount `v / 1e6` with `M`. -/
def barLabelSpec (v : ℚ) : String :=
  if 1 ≤ v / 1000000000 then fmt1 (v / 1000000000) ++ "B"
  else fmt1 (v / 1000000) ++ "M"

/-- A matplotlib colormap, identified by name (only the three the script
uses). -/
inductive Colormap where
  | viridis
  | Set3
  | prism
deriving DecidableEq, Repr

/-- One `ax.plot(...)` call issued by the line renderer: x values, y values
(`none` for a coerced NaN), legend label and color. -/
structure LineSeries where
  xs : List String
  ys : List (Option ℚ)
  label : String
  color : String
deriving DecidableEq, Repr

/-- The color cycle of line 56: `colors = ['red', 'dodgerblue', 'lawngreen', 'k']`. -/
def line_colors : List String := ["red", "dodgerblue", "lawngreen", "k"]

/-- Embedding of `line_plot_creation` (lines 44-70): for each year (with its
index `i`), selects the indicator's values for the countries, coerces them to
numeric and divides by `1e1`, and plots them against the country axis with
label `year` and color `colors[i]`.  (Python would raise an IndexError past
the fourth year; `getD` models the in-range accesses the script performs.)
The axes argument is dropped; the returned list is the sequence of plot
calls drawn onto it. -/
def line_plot_creation (data : DataFrame) (countries : List String)
    (indicator : String) (years : List String) : List LineSeries :=
  years.enum.map (fun p =>
    { xs := countries
      ys := (coerceCells (selectValues data indicator countries p.2)).map
        (fun v => v.map (fun q => q / 10))
      label := p.2
      color := line_colors.getD p.1 "" })

/-- One `ax.barh(...)` call of the bar renderer together with the `ax.text`
annotations written next to its bars: the bar widths in billions (`none` for
a coerced NaN), the year label, the colormap sample point `i / len(years)`,
and the formatted annotation per bar. -/
structure BarSeries where
  widths : List (Option ℚ)
  label : String
  colorPoint : ℚ
  annotations : List String
deriving DecidableEq, Repr

/-- Embedding of `horizontal_bar_plot_creation` (lines 72-115): for each
year (index `i`), selects and coerces the values, rescales them to billions,
draws horizontal bars colored from viridis at `i / len(years)`, and annotates
each bar with the `barLabelOpt` formatting of its billions value. -/
def horizontal_bar_plot_creation (data : DataFrame) (countries : List String)
    (indicator : String) (years : List String) : List BarSeries :=
  years.enum.map (fun p =>
    let values := coerceCells (selectValues data indicator countries p.2)
    let values_billions := values.map (fun v => v.map (fun q => q / 1000000000))
    { widths := values_billions
      label := p.2
      colorPoint := (p.1 : ℚ) / (years.length : ℚ)
      annotations := values_billions.map barLabelOpt })

/-- Python `str.capitalize()`: first character uppercased, the rest
lowercased (line 150). -/
def pyCapitalize (s : String) : String :=
  (s.take 1).toUpper ++ (s.drop 1).toLower

/-- The pie drawn by one call of the pie renderer: wedge values (`none` for
a coerced NaN), wedge labels, explode offsets, colormap, title and the text
placed at the donut center. -/
structure PieChart where
  values : List (Option ℚ)
  labels : List String
  explode : List ℚ
  colormap : Colormap
  title : String
  centerText : String
deriving DecidableEq, Repr

/-- Embedding of `create_merchandise_pie_chart` (lines 117-152): selects and
coerces the year's values for the countries, explodes every wedge by 0.1,
picks `Set3` for `chart_type == 'exports'` and `prism` otherwise, titles the
chart `'Exports to economies in the Arab World in <year>'` respectively
`'Imports from economies in the Arab World in <year>'`, and writes the
capitalized chart type at the center. -/
def create_merchandise_pie_chart (data : DataFrame) (countries : List String)
    (indicator : String) (year : String) (chart_type : String) : PieChart where
  values := coerceCells (selectValues data indicator countries year)
  labels := countries
  explode := List.replicate countries.length (1 / 10)
  colormap := if chart_type == "exports" then Colormap.Set3 else Colormap.prism
  title :=
    (if chart_type == "exports" then "Exports to economies in the Arab World"
     else "Imports from economies in the Arab World") ++ " in " ++ year
  centerText := pyCapitalize chart_type

/-- The state-passing embedding of a renderer call for the frame-effect
claim: the renderer body (lines 44-70, 72-115, 117-152) only reads `data` —
no statement assigns into it — so executing the call returns the drawing
output together with the table in the state it left it. -/
def line_plot_run (data : DataFrame) (countries : List String)
    (indicator : String) (years : List String) : List LineSeries × DataFrame :=
  (line_plot_creation data countries indicator years, data)

/-- State-passing form of the bar renderer; see `line_plot_run`. -/
def horizontal_bar_plot_run (data : DataFrame) (countries : List String)
    (indicator : String) (years : List String) : List BarSeries × DataFrame :=
  (horizontal_bar_plot_creation data countries indicator years, data)

/-- State-passing form of the pie renderer; see `line_plot_run`. -/
def create_merchandise_pie_chart_run (data : DataFrame) (countries : List String)
    (indicator : String) (year : String) (chart_type : String) :
    PieChart × DataFrame :=
  (create_merchandise_pie_chart data countries indicator year chart_type, data)

/-- Line 154. -/
def filename : String := "MerchandiseData.csv"

/-- Lines 158-159. -/
def arab_countries : List String :=
  ["Saudi Arabia", "Bahrain", "Iraq", "Qatar", "Libya", "Kuwait"]

/-- Line 160. -/
def european_countries : List String :=
  ["France", "Germany", "Italy", "Poland", "Spain"]

/-- Line 161. -/
def asian_countries : List String :=
  ["China", "India", "Japan", "Malaysia", "Singapore"]

/-- Lines 162-163. -/
def american_countries : List String :=
  ["Colombia", "Brazil", "Canada", "Chile", "Argentina", "Mexico"]

/-- Line 165. -/
def year_list : List String := ["2010", "2011", "2012", "2013"]

/-- Lines 166-169. -/
def indicators_list : List String :=
  ["Merchandise exports (current US$)",
   "Merchandise exports to economies in the Arab World (% of total merchandise exports)",
   "Merchandise imports (current US$)",
   "Merchandise imports from economies in the Arab World (% of total merchandise imports)"]

/-- The four subplots of the 2-by-2 grid, as drawn by lines 171-180. -/
structure Dashboard where
  topLeft : List LineSeries
  topRight : List BarSeries
  bottomLeft : PieChart
  bottomRight : PieChart
deriving DecidableEq, Repr

/-- The composer (lines 171-180): one renderer call per grid cell with the
hardcoded country groups, indicators and years. -/
def composeDashboard (data : DataFrame) : Dashboard where
  topLeft := line_plot_creation data american_countries
    "Merchandise exports (current US$)" year_list
  topRight := horizontal_bar_plot_creation data asian_countries
    "Merchandise imports (current US$)" year_list
  bottomLeft := create_merchandise_pie_chart data arab_countries
    "Merchandise exports to economies in the Arab World (% of total merchandise exports)"
    "2015" "exports"
  bottomRight := create_merchandise_pie_chart data arab_countries
    "Merchandise imports from economies in the Arab World (% of total merchandise imports)"
    "2015" "imports"

/-- Embedding of `pd.read_csv(filename)` at line 17/156: `none` models a
missing or unparseable file, on which pandas raises; the exception value is
embedded as `Except.error`.  A present, parseable file is `some` its parsed
table. -/
def loadCSV (file : Option DataFrame) : Except String DataFrame :=
  match file with
  | none => Except.error ("FileNotFoundError: " ++ filename)
  | some df => Except.ok df

/-- Line 223 is commented out: `#plt.savefig("22071718.png", ...)`.  The
script never writes an image file. -/
def savefig_enabled : Bool := false

/-- The whole script run on the (possibly missing) input file: load, or
propagate the load exception unhandled; on success preprocess, compose the
dashboard, and return it together with the list of image files written
(empty, since the `savefig` line is commented out). -/
def runScript (file : Option DataFrame) : Except String (Dashboard × List String) :=
  match loadCSV file with
  | Except.error e => Except.error e
  | Except.ok raw =>
    let merchandise_data := read_export_import_data raw
    Except.ok (composeDashboard merchandise_data,
      if savefig_enabled then ["22071718.png"] else [])

/-- The image files a script run wrote: those recorded on success, none when
the run aborted with an exception. -/
def writtenFiles (r : Except String (Dashboard × List String)) : List String :=
  match r with
  | Except.error _ => []
  | Except.ok p => p.2

/-! ## Theorems -/

/-- `roundHalfEven` is the identity on integers. -/
lemma roundHalfEven_intCast (n : ℤ) : roundHalfEven ((n : ℚ)) = n := by
  norm_num [roundHalfEven, Int.floor_intCast]

/-- C1: in the bar renderer, each bar's annotation label is the value
rescaled to billions, formatted to one decimal place with suffix `B` when
the billions amount is at least 1, and otherwise the millions amount
(`v / 1e6`) formatted to one decimal place with suffix `M`; in particular
2500000000 formats as `"2.5B"` and 400000000 formats as `"400.0M"`. -/
theorem bar_annotation_formatting :
    (∀ v : ℚ, barLabelOpt (some (v / 1000000000)) = barLabelSpec v) ∧
    barLabelSpec 2500000000 = "2.5B" ∧ barLabelSpec 400000000 = "400.0M" := by
  refine ⟨fun v => ?_, ?_, ?_⟩
  · unfold barLabelOpt barLabel barLabelSpec
    by_cases h : 1 ≤ v / 1000000000
    · simp [h]
    · simp only [h, if_false]
      rw [show v / 1000000000 * 1000 = v / 1000000 from by ring]
  · unfold barLabelSpec
    rw [if_pos (by norm_num : (1 : ℚ) ≤ 2500000000 / 1000000000)]
    unfold fmt1
    rw [show (10 : ℚ) * (2500000000 / 1000000000) = ((25 : ℤ) : ℚ) from by norm_num,
      roundHalfEven_intCast]
    rfl
  · unfold barLabelSpec
    rw [if_neg (by norm_num : ¬ (1 : ℚ) ≤ 400000000 / 1000000000)]
    unfold fmt1
    rw [show (10 : ℚ) * (400000000 / 1000000) = ((4000 : ℤ) : ℚ) from by norm_num,
      roundHalfEven_intCast]
    rfl

/-- C6: the pie renderer's color palette and title are determined solely by
`chart_type`: `'exports'` selects the Set3 colormap and the exports title,
any other value selects the prism colormap and the imports title. -/
theorem pie_style_by_chart_type :
    (∀ (d : DataFrame) (cs : List String) (ind y : String),
      (create_merchandise_pie_chart d cs ind y "exports").colormap = Colormap.Set3 ∧
      (create_merchandise_pie_chart d cs ind y "exports").title =
        "Exports to economies in the Arab World in " ++ y) ∧
    (∀ (d : DataFrame) (cs : List String) (ind y ct : String), ct ≠ "exports" →
      (create_merchandise_pie_chart d cs ind y ct).colormap = Colormap.prism ∧
      (create_merchandise_pie_chart d cs ind y ct).title =
        "Imports from economies in the Arab World in " ++ y) := by
  refine ⟨fun d cs ind y => ⟨rfl, rfl⟩, fun d cs ind y ct h => ?_⟩
  have hb : (ct == "exports") = false := beq_eq_false_iff_ne.mpr h
  exact ⟨by simp [create_merchandise_pie_chart, hb],
    by simp [create_merchandise_pie_chart, hb]⟩

/-- Witness for C6 at the script's own imports call: `chart_type = "imports"`. -/
theorem pie_style_by_chart_type_witness :
    "imports" ≠ "exports" ∧
    ((create_merchandise_pie_chart ⟨[], []⟩ [] "i" "2015" "imports").colormap =
        Colormap.prism ∧
     (create_merchandise_pie_chart ⟨[], []⟩ [] "i" "2015" "imports").title =
        "Imports from economies in the Arab World in " ++ "2015") :=
  ⟨by decide, pie_style_by_chart_type.2 ⟨[], []⟩ [] "i" "2015" "imports" (by decide)⟩

/-- C7: on a missing or unparseable input file the load step's exception
propagates unhandled out of the script, and no output image file is written
(the `savefig` call is commented out, so in fact no run writes one). -/
theorem load_failure_propagates :
    runScript none = Except.error ("FileNotFoundError: " ++ filename) ∧
    writtenFiles (runScript none) = [] ∧
    ∀ file, writtenFiles (runScript file) = [] := by
  refine ⟨rfl, rfl, fun file => ?_⟩
  cases file <;> rfl

/-- C8: the loaded table is read-only in the renderers: each of the three
renderer calls, run in state-passing form, leaves the data table it was
passed unchanged. -/
theorem renderers_preserve_data :
    ∀ (data : DataFrame) (countries : List String) (indicator : String)
      (years : List String) (year chart_type : String),
      (line_plot_run data countries indicator years).2 = data ∧
      (horizontal_bar_plot_run data countries indicator years).2 = data ∧
      (create_merchandise_pie_chart_run data countries indicator year chart_type).2 =
        data :=
  fun _ _ _ _ _ _ => ⟨rfl, rfl, rfl⟩

/-- C9: on any table with at most 10 data rows the loader is total and
returns a table with zero records: `.iloc[:-10]` clamps to the empty slice
rather than failing. -/
theorem loader_empty_on_short_tables (df : DataFrame) (h : df.rows.length ≤ 10) :
    (read_export_import_data df).rows = [] := by
  unfold read_export_import_data dropColumns
  simp [Nat.sub_eq_zero_of_le h]

/-- Witness for C9: a well-formed table with 2 data rows loads to zero
records. -/
theorem loader_empty_on_short_tables_witness :
    (DataFrame.mk
      ["Country Name", "Country Code", "Series Name", "Series Code", "2010"]
      [["Brazil", "BRA", "X", "XS", "1"], ["Canada", "CAN", "X", "XS", "2"]]).rows.length
        ≤ 10 ∧
    (read_export_import_data (DataFrame.mk
      ["Country Name", "Country Code", "Series Name", "Series Code", "2010"]
      [["Brazil", "BRA", "X", "XS", "1"], ["Canada", "CAN", "X", "XS", "2"]])).rows
        = [] :=
  ⟨by decide, loader_empty_on_short_tables _ (by decide)⟩

/-- C10: the header truncation is idempotent — truncating an
already-truncated header changes nothing — and a header containing no space
is left unchanged. -/
theorem firstToken_idempotent :
    ∀ s : String, firstToken (firstToken s) = firstToken s ∧
      (s.data.all (fun c => c != ' ') = true → firstToken s = s) := by
  intro s
  constructor
  · unfold firstToken
    exact congrArg String.mk (List.takeWhile_idem)
  · intro h
    unfold firstToken
    rw [List.takeWhile_eq_self_iff.mpr (fun c hc => by
      simpa using List.all_eq_true.mp h c hc)]

/-- Witness for C10: the truncated year header `"2010"` (no space) is a
fixed point of the truncation. -/
theorem firstToken_idempotent_witness :
    (firstToken (firstToken "2010 [YR2010]") = firstToken "2010 [YR2010]" ∧
      ("2010 [YR2010]".data.all (fun c => c != ' ') = true →
        firstToken "2010 [YR2010]" = "2010 [YR2010]")) ∧
    ("2010".data.all (fun c => c != ' ') = true ∧ firstToken "2010" = "2010") :=
  ⟨firstToken_idempotent "2010 [YR2010]",
   ⟨by decide, (firstToken_idempotent "2010").2 (by decide)⟩⟩

/-- Membership testing by `contains` is invariant under permutation of the
list. -/
lemma contains_congr_of_perm {cs cs2 : List String} (h : cs.Perm cs2)
    (x : String) : cs.contains x = cs2.contains x := by
  rw [Bool.eq_iff_iff]
  constructor
  · intro hx
    exact List.elem_iff.mpr (h.mem_iff.mp (List.elem_iff.mp hx))
  · intro hx
    exact List.elem_iff.mpr (h.mem_iff.mpr (List.elem_iff.mp hx))

/-- C3: the selection step returns exactly the `year` values of the rows
whose Series equals the indicator and whose Country is in the country list,
in table row order; its length is the number of matching rows; and the
result does not depend on the order of the country list. -/
theorem selection_row_order (df : DataFrame) (indicator year : String)
    (cs cs2 : List String) (h : cs.Perm cs2) :
    (selectValues df indicator cs year).length =
      df.rows.countP (matchesFilter df indicator cs) ∧
    selectValues df indicator cs year =
      (df.rows.filter (matchesFilter df indicator cs)).map
        (fun r => cellAt df r year) ∧
    selectValues df indicator cs year = selectValues df indicator cs2 year := by
  refine ⟨?_, rfl, ?_⟩
  · rw [selectValues, List.length_map, List.countP_eq_length_filter]
  · unfold selectValues
    have hf : df.rows.filter (matchesFilter df indicator cs) =
        df.rows.filter (matchesFilter df indicator cs2) := by
      apply List.filter_congr
      intro r hr
      unfold matchesFilter
      rw [contains_congr_of_perm h]
    rw [hf]

/-- Witness for C3: selecting the exports indicator for Brazil and Canada
from a two-row table returns both values in table row order, also when the
country list is given in the reversed order. -/
theorem selection_row_order_witness :
    (["Brazil", "Canada"] : List String).Perm ["Canada", "Brazil"] ∧
    ((selectValues
        ⟨["Country", "Series", "2010"],
         [["Brazil", "Merchandise exports (current US$)", "100"],
          ["Canada", "Merchandise exports (current US$)", "200"]]⟩
        "Merchandise exports (current US$)" ["Brazil", "Canada"] "2010").length =
      (DataFrame.mk ["Country", "Series", "2010"]
         [["Brazil", "Merchandise exports (current US$)", "100"],
          ["Canada", "Merchandise exports (current US$)", "200"]]).rows.countP
        (matchesFilter
          ⟨["Country", "Series", "2010"],
           [["Brazil", "Merchandise exports (current US$)", "100"],
            ["Canada", "Merchandise exports (current US$)", "200"]]⟩
          "Merchandise exports (current US$)" ["Brazil", "Canada"]) ∧
     selectValues
        ⟨["Country", "Series", "2010"],
         [["Brazil", "Merchandise exports (current US$)", "100"],
          ["Canada", "Merchandise exports (current US$)", "200"]]⟩
        "Merchandise exports (current US$)" ["Brazil", "Canada"] "2010" =
      ((DataFrame.mk ["Country", "Series", "2010"]
         [["Brazil", "Merchandise exports (current US$)", "100"],
          ["Canada", "Merchandise exports (current US$)", "200"]]).rows.filter
        (matchesFilter
          ⟨["Country", "Series", "2010"],
           [["Brazil", "Merchandise exports (current US$)", "100"],
            ["Canada", "Merchandise exports (current US$)", "200"]]⟩
          "Merchandise exports (current US$)" ["Brazil", "Canada"])).map
        (fun r => cellAt
          ⟨["Country", "Series", "2010"],
           [["Brazil", "Merchandise exports (current US$)", "100"],
            ["Canada", "Merchandise exports (current US$)", "200"]]⟩
          r "2010") ∧
     selectValues
        ⟨["Country", "Series", "2010"],
         [["Brazil", "Merchandise exports (current US$)", "100"],
          ["Canada", "Merchandise exports (current US$)", "200"]]⟩
        "Merchandise exports (current US$)" ["Brazil", "Canada"] "2010" =
      selectValues
        ⟨["Country", "Series", "2010"],
         [["Brazil", "Merchandise exports (current US$)", "100"],
          ["Canada", "Merchandise exports (current US$)", "200"]]⟩
        "Merchandise exports (current US$)" ["Canada", "Brazil"] "2010") ∧
    selectValues
        ⟨["Country", "Series", "2010"],
         [["Brazil", "Merchandise exports (current US$)", "100"],
          ["Canada", "Merchandise exports (current US$)", "200"]]⟩
        "Merchandise exports (current US$)" ["Brazil", "Canada"] "2010" =
      ["100", "200"] :=
  ⟨by decide,
   selection_row_order
     ⟨["Country", "Series", "2010"],
      [["Brazil", "Merchandise exports (current US$)", "100"],
       ["Canada", "Merchandise exports (current US$)", "200"]]⟩
     "Merchandise exports (current US$)" "2010"
     ["Brazil", "Canada"] ["Canada", "Brazil"] (by decide),
   by decide⟩

/-- C4: numeric coercion is total and never raises: the literal `"N/A"`
coerces to the missing value `none`, coercion preserves the number of cells,
any non-parseable cell yields `none` at its position, and all three
renderers coerce their selected cells with exactly this `coerceCells`. -/
theorem coercion_never_fails :
    parseNumeric "N/A" = none ∧
    (∀ cells : List String, (coerceCells cells).length = cells.length) ∧
    (∀ (cells : List String) (i : ℕ) (s : String),
      cells[i]? = some s → parseNumeric s = none →
      (coerceCells cells)[i]? = some none) ∧
    (∀ (df : DataFrame) (cs : List String) (ind y ct : String),
      (create_merchandise_pie_chart df cs ind y ct).values =
        coerceCells (selectValues df ind cs y)) ∧
    (∀ (df : DataFrame) (cs : List String) (ind : String) (years : List String),
      (line_plot_creation df cs ind years).map LineSeries.ys =
        years.map (fun y => (coerceCells (selectValues df ind cs y)).map
          (fun v => v.map (fun q => q / 10)))) ∧
    (∀ (df : DataFrame) (cs : List String) (ind : String) (years : List String),
      (horizontal_bar_plot_creation df cs ind years).map BarSeries.widths =
        years.map (fun y => (coerceCells (selectValues df ind cs y)).map
          (fun v => v.map (fun q => q / 1000000000)))) := by
  refine ⟨rfl, fun cells => List.length_map cells parseNumeric,
    fun cells i s hi hs => ?_, fun df cs ind y ct => rfl,
    fun df cs ind years => ?_, fun df cs ind years => ?_⟩
  · rw [coerceCells, List.getElem?_map, hi, Option.map_some', hs]
  · rw [line_plot_creation, List.map_map]
    conv_rhs => rw [← List.enum_map_snd years, List.map_map]
    rfl
  · rw [horizontal_bar_plot_creation, List.map_map]
    conv_rhs => rw [← List.enum_map_snd years, List.map_map]
    rfl

/-- Witness for C4: the cell `"N/A"` at position 0 of a selected column
coerces to the missing value. -/
theorem coercion_never_fails_witness :
    (["N/A", "42"] : List String)[0]? = some "N/A" ∧
    parseNumeric "N/A" = none ∧
    (coerceCells ["N/A", "42"])[0]? = some none :=
  ⟨by decide, coercion_never_fails.1,
   coercion_never_fails.2.2.1 ["N/A", "42"] 0 "N/A" (by decide)
     coercion_never_fails.1⟩

/-- C5: the line renderer draws one series per year, and the i-th series
plots, against the country axis, the selected values of the i-th year
coerced and divided by 10, labelled with that year. -/
theorem line_series_per_year (data : DataFrame) (countries : List String)
    (indicator : String) (years : List String) :
    (line_plot_creation data countries indicator years).length = years.length ∧
    ∀ (i : ℕ) (y : String), years[i]? = some y →
      (line_plot_creation data countries indicator years)[i]? =
        some { xs := countries
               ys := (coerceCells (selectValues data indicator countries y)).map
                 (fun v => v.map (fun q => q / 10))
               label := y
               color := line_colors.getD i "" } := by
  constructor
  · rw [line_plot_creation, List.length_map, List.enum_length]
  · intro i y hy
    rw [line_plot_creation, List.getElem?_map, List.getElem?_enum, hy]
    rfl

/-- Witness for C5 at a one-year list: the single series is the year's
selected values scaled by one tenth. -/
theorem line_series_per_year_witness :
    (["2010"] : List String)[0]? = some "2010" ∧
    (line_plot_creation ⟨[], []⟩ ["Brazil"] "X" ["2010"])[0]? =
      some { xs := ["Brazil"], ys := [], label := "2010", color := "red" } :=
  ⟨by decide,
   (line_series_per_year ⟨[], []⟩ ["Brazil"] "X" ["2010"]).2 0 "2010" (by decide)⟩

/-- The World Bank export header row: the four fixed identifier columns
followed by the year columns. -/
def wbHeader (years : List String) : List String :=
  "Country Name" :: "Country Code" :: "Series Name" :: "Series Code" :: years

/-- Dropping the two code columns from a row under the World Bank header
keeps the first and third cells and everything past the fourth. -/
lemma row_drop_eq (years : List String) (r : List String)
    (hyears : ∀ y ∈ years, (decide (y ∉ ["Country Code", "Series Code"])) = true)
    (hrlen : r.length = 4 + years.length) :
    (((wbHeader years).zip r).filter
        (fun p => decide (p.1 ∉ ["Country Code", "Series Code"]))).map Prod.snd =
      r.take 1 ++ (r.drop 2).take 1 ++ r.drop 4 := by
  rcases r with _ | ⟨a, r⟩
  · simp only [List.length_nil] at hrlen; omega
  rcases r with _ | ⟨b, r⟩
  · simp only [List.length_cons, List.length_nil] at hrlen; omega
  rcases r with _ | ⟨c, r⟩
  · simp only [List.length_cons, List.length_nil] at hrlen; omega
  rcases r with _ | ⟨d, rest⟩
  · simp only [List.length_cons, List.length_nil] at hrlen; omega
  have hrest : rest.length = years.length := by
    simp only [List.length_cons] at hrlen; omega
  have hkeep : (years.zip rest).filter
      (fun p => decide (p.1 ∉ ["Country Code", "Series Code"])) =
      years.zip rest := by
    apply List.filter_eq_self.mpr
    intro p hp
    exact hyears p.1 (List.of_mem_zip hp).1
  unfold wbHeader
  rw [List.zip_cons_cons, List.zip_cons_cons, List.zip_cons_cons,
    List.zip_cons_cons, List.filter_cons, if_pos (by simp),
    List.filter_cons, if_neg (by simp), List.filter_cons, if_pos (by simp),
    List.filter_cons, if_neg (by simp), hkeep, List.map_cons, List.map_cons,
    List.map_snd_zip years rest (le_of_eq hrest)]
  rfl

/-- C2: loading a table with the World Bank header and `N + 10` data rows
yields exactly `N` rows, drops the `Country Code` and `Series Code`
columns from the header and from every surviving row, and truncates every
remaining header to its first space-delimited token, so the headers become
`Country`, `Series` and the truncated year headers. -/
theorem loader_shape (years : List String) (rows : List (List String)) (N : ℕ)
    (hlen : rows.length = N + 10)
    (hy : ∀ y ∈ years, y ≠ "Country Code" ∧ y ≠ "Series Code")
    (hr : ∀ r ∈ rows, r.length = 4 + years.length) :
    (read_export_import_data ⟨wbHeader years, rows⟩).rows.length = N ∧
    (read_export_import_data ⟨wbHeader years, rows⟩).columns =
      "Country" :: "Series" :: years.map firstToken ∧
    (read_export_import_data ⟨wbHeader years, rows⟩).rows =
      (rows.take N).map
        (fun r => r.take 1 ++ (r.drop 2).take 1 ++ r.drop 4) := by
  have hyears : ∀ y ∈ years, (decide (y ∉ ["Country Code", "Series Code"])) = true := by
    intro y hmem
    rcases hy y hmem with ⟨h1, h2⟩
    simp [h1, h2]
  have htake : List.take (rows.length - 10) rows = List.take N rows := by
    rw [hlen]
    norm_num
  simp only [read_export_import_data, dropColumns]
  refine ⟨?_, ?_, ?_⟩
  · rw [htake, List.length_map, List.length_take, hlen]
    omega
  · unfold wbHeader
    rw [List.filter_cons, if_pos (by decide), List.filter_cons,
      if_neg (by decide), List.filter_cons, if_pos (by decide),
      List.filter_cons, if_neg (by decide), List.filter_eq_self.mpr hyears,
      List.map_cons, List.map_cons]
    rfl
  · rw [htake]
    apply List.map_congr_left
    intro r hrt
    exact row_drop_eq years r hyears (hr r (List.mem_of_mem_take hrt))

/-- Witness for C2: a table with the World Bank header, two year columns
and `1 + 10` rows loads to one row with headers `Country`, `Series`,
`2010`, `2011`. -/
theorem loader_shape_witness :
    ((["Brazil", "BRA", "X", "XS", "1", "2"] :: List.replicate 10
        ["f", "ff", "g", "gg", "0", "0"]).length = 1 + 10 ∧
      (∀ y ∈ ["2010 [YR2010]", "2011 [YR2011]"],
        y ≠ "Country Code" ∧ y ≠ "Series Code") ∧
      (∀ r ∈ ("Brazil" :: "BRA" :: "X" :: "XS" :: "1" :: ["2"]) :: List.replicate 10
        ["f", "ff", "g", "gg", "0", "0"],
        r.length = 4 + (["2010 [YR2010]", "2011 [YR2011]"] : List String).length)) ∧
    ((read_export_import_data
        ⟨wbHeader ["2010 [YR2010]", "2011 [YR2011]"],
         ["Brazil", "BRA", "X", "XS", "1", "2"] :: List.replicate 10
           ["f", "ff", "g", "gg", "0", "0"]⟩).rows.length = 1 ∧
     (read_export_import_data
        ⟨wbHeader ["2010 [YR2010]", "2011 [YR2011]"],
         ["Brazil", "BRA", "X", "XS", "1", "2"] :: List.replicate 10
           ["f", "ff", "g", "gg", "0", "0"]⟩).columns =
       "Country" :: "Series" ::
         (["2010 [YR2010]", "2011 [YR2011]"] : List String).map firstToken ∧
     (read_export_import_data
        ⟨wbHeader ["2010 [YR2010]", "2011 [YR2011]"],
         ["Brazil", "BRA", "X", "XS", "1", "2"] :: List.replicate 10
           ["f", "ff", "g", "gg", "0", "0"]⟩).rows =
       ((["Brazil", "BRA", "X", "XS", "1", "2"] :: List.replicate 10
           ["f", "ff", "g", "gg", "0", "0"]).take 1).map
         (fun r => r.take 1 ++ (r.drop 2).take 1 ++ r.drop 4)) :=
  ⟨⟨by decide, by decide, by decide⟩,
   loader_shape ["2010 [YR2010]", "2011 [YR2011]"]
     (["Brazil", "BRA", "X", "XS", "1", "2"] :: List.replicate 10
       ["f", "ff", "g", "gg", "0", "0"]) 1
     (by decide) (by decide) (by decide)⟩

end Merch
